import Mathlib

/-!
Shallow embedding of `go_gpt3_cli` (src/main.go), a single-shot OpenAI
completions client.  The program's core is the function `generateText`,
which reads the API key from the environment, serializes a
`CompletionRequest` to JSON, issues one POST to a fixed URL, checks the
HTTP status, decodes the body into a `CompletionResponse` and returns the
text of the first choice.

Machine-level conventions of the embedding:
* JSON values are the inductive `Json`; Go `float64` fields are carried as
  rationals (`ℚ`) — no arithmetic is ever performed on them, they are only
  serialized and compared, so the exact-rational carrier is faithful.
* A response body is either well-formed JSON or a `malformed` byte string
  (on which Go's `json.Decoder.Decode` fails).
* The environment is a function `String → String`; `os.Getenv` returns ""
  for unset variables, so "unset" and "empty" coincide, as in Go.
* The HTTP client is a `transport` parameter `HttpRequest → Except String
  HttpResponse`; `Except.error` is a transport-level failure of
  `client.Do` (connection error, timeout).
* `generateText` returns, alongside the Go result, a `Trace` recording
  each request handed to the transport and the number of times the JSON
  decoder was applied to a response body, so that "no network call" and
  "body not parsed" are stateable.
* Go's runtime panic on the unguarded `Choices[0]` is the explicit
  `GoResult.panicked` constructor; a normal return `(text, err)` is
  `GoResult.ret text err`.
-/

namespace Gpt3Cli

/-- JSON values, with numbers carried as exact rationals. -/
inductive Json where
  | null : Json
  | bool (b : Bool) : Json
  | num (q : ℚ) : Json
  | str (s : String) : Json
  | arr (elems : List Json) : Json
  | obj (fields : List (String × Json)) : Json

/-- Go's object decoding lets a later duplicate key overwrite an earlier
one, so field lookup returns the last binding for a name. -/
def lookupField : List (String × Json) → String → Option Json
  | [], _ => none
  | (k, v) :: rest, name =>
    match lookupField rest name with
    | some r => some r
    | none => if k = name then some v else none

/-- Projection of a named field out of a serialized JSON object. -/
def Json.getField : Json → String → Option Json
  | Json.obj fields, name => lookupField fields name
  | _, _ => none

/-- The fixed endpoint URL (src/main.go line 14). -/
def apiURL : String := "https://api.openai.com/v1/completions"

/-- The default model identifier substituted for an empty `model`
argument (src/main.go line 75). -/
def defaultModel : String := "text-davinci-003"

/-- `CompletionRequest` of src/main.go lines 16–34, one Lean field per Go
field, in declaration order.  `float64` fields are rationals, `int`
fields are integers, and the `[]string` field is `Option (List String)`
(`none` is Go's nil slice, which marshals to JSON `null`). -/
structure CompletionRequest where
  prompt : String
  model : String
  maxTokens : Int
  temperature : ℚ
  topP : ℚ
  frequencyPenalty : ℚ
  presencePenalty : ℚ
  bestOf : Int
  stop : String
  stream : Bool
  maxTokensPerBatch : Int
  n : Int
  streaming : Bool
  stopSequence : Option (List String)
  batchSize : Int
  maxTries : Int
  diversity : ℚ
deriving DecidableEq

/-- `Choice` of src/main.go lines 52–71.  `[]int` slices are plain lists:
nil and empty slices are indistinguishable to every consumer here. -/
structure Choice where
  text : String
  index : Int
  logprobs : List Int
  finishReason : String
  presencePenalty : ℚ
  frequencyPenalty : ℚ
  reranked : Bool
  truncated : Bool
  diversity : ℚ
  temperature : ℚ
  topP : ℚ
  stopSequence : List Int
  tokens : List Int
  weight : ℚ
  probability : ℚ
  rank : Int
  diversityRank : Int
  diversityScore : ℚ
deriving DecidableEq

/-- `CompletionResponse` of src/main.go lines 36–50. -/
structure CompletionResponse where
  id : String
  model : String
  prompt : String
  choices : List Choice
  stream : Bool
  streaming : Bool
  truncated : Bool
  warning : String
  errors : List String
  hasMore : Bool
  maxTokensPerBatch : Int
  batchSize : Int
  maxTries : Int
deriving DecidableEq

/-- Marshalling of a nil-able `[]string`: Go writes `null` for a nil
slice and an array otherwise. -/
def marshalStringSlice : Option (List String) → Json
  | none => Json.null
  | some xs => Json.arr (xs.map Json.str)

/-- `json.Marshal` applied to a `CompletionRequest`: every field is
emitted (no `omitempty` tags), under its `json:"..."` tag name, in struct
declaration order.  Marshalling this struct cannot fail in Go (no
unsupported values arise), so it is total here; the dead
`if err != nil` branch after `json.Marshal` in the source is thereby
unreachable. -/
def marshalCompletionRequest (r : CompletionRequest) : Json :=
  Json.obj [
    ("prompt", Json.str r.prompt),
    ("model", Json.str r.model),
    ("max_tokens", Json.num (r.maxTokens : ℚ)),
    ("temperature", Json.num r.temperature),
    ("top_p", Json.num r.topP),
    ("frequency_penalty", Json.num r.frequencyPenalty),
    ("presence_penalty", Json.num r.presencePenalty),
    ("best_of", Json.num (r.bestOf : ℚ)),
    ("stop", Json.str r.stop),
    ("stream", Json.bool r.stream),
    ("max_tokens_per_batch", Json.num (r.maxTokensPerBatch : ℚ)),
    ("n", Json.num (r.n : ℚ)),
    ("streaming", Json.bool r.streaming),
    ("stop_sequence", marshalStringSlice r.stopSequence),
    ("batch_size", Json.num (r.batchSize : ℚ)),
    ("max_tries", Json.num (r.maxTries : ℚ)),
    ("diversity", Json.num (r.diversity : ℚ))
  ]

/-- The struct literal of src/main.go lines 83–88: `Prompt`, `Model`,
`Temperature: 0.8` and `MaxTokens: 2000` set by the caller, every other
field at its Go zero value. -/
def mkCompletionRequest (prompt model : String) : CompletionRequest :=
  { prompt := prompt
    model := model
    maxTokens := 2000
    temperature := 0.8
    topP := 0
    frequencyPenalty := 0
    presencePenalty := 0
    bestOf := 0
    stop := ""
    stream := false
    maxTokensPerBatch := 0
    n := 0
    streaming := false
    stopSequence := none
    batchSize := 0
    maxTries := 0
    diversity := 0 }

/-- The serialized request body `generateText` sends for a given prompt
and (already defaulted) model. -/
def requestPayload (prompt model : String) : Json :=
  marshalCompletionRequest (mkCompletionRequest prompt model)

/-! ## Decoding (encoding/json unmarshalling into the response structs)

Go's decoder ignores unknown object keys, treats JSON `null` for a field
(or a missing field) as "leave the zero value", and reports a type error
when a present, non-null value does not fit the target field's type.
Field names are matched by their exact `json:"..."` tag (Go additionally
falls back to a case-insensitive match; no key in play differs only by
case, so exact matching is faithful here). -/

/-- Unmarshal a JSON value into a Go `string`. -/
def decodeString : Json → Except String String
  | Json.str s => Except.ok s
  | _ => Except.error "cannot unmarshal value into field of type string"

/-- Unmarshal a JSON value into a Go `int`: the number must be integral. -/
def decodeInt : Json → Except String Int
  | Json.num q =>
    if q.den = 1 then Except.ok q.num
    else Except.error "cannot unmarshal fractional number into field of type int"
  | _ => Except.error "cannot unmarshal value into field of type int"

/-- Unmarshal a JSON value into a Go `float64`. -/
def decodeFloat : Json → Except String ℚ
  | Json.num q => Except.ok q
  | _ => Except.error "cannot unmarshal value into field of type float64"

/-- Unmarshal a JSON value into a Go `bool`. -/
def decodeBool : Json → Except String Bool
  | Json.bool b => Except.ok b
  | _ => Except.error "cannot unmarshal value into field of type bool"

/-- Unmarshal each element of a JSON array with the given element
decoder; fail on any non-array value. -/
def decodeArr (dec : Json → Except String α) : Json → Except String (List α)
  | Json.arr elems => elems.mapM dec
  | _ => Except.error "cannot unmarshal value into field of slice type"

/-- Decode one object field: missing or `null` yields the Go zero value
passed as `dflt`; anything else must decode. -/
def fieldOr (fields : List (String × Json)) (name : String)
    (dec : Json → Except String α) (dflt : α) : Except String α :=
  match lookupField fields name with
  | none => Except.ok dflt
  | some Json.null => Except.ok dflt
  | some j => dec j

/-- The zero value of `Choice`, produced for a `null` array element. -/
def zeroChoice : Choice :=
  ⟨"", 0, [], "", 0, 0, false, false, 0, 0, 0, [], [], 0, 0, 0, 0, 0⟩

/-- Unmarshal a JSON value into a `Choice` (src/main.go lines 52–71):
each tagged field is decoded at its Go type, unknown keys are ignored. -/
def decodeChoice : Json → Except String Choice
  | Json.null => Except.ok zeroChoice
  | Json.obj fields => do
    let text ← fieldOr fields "text" decodeString ""
    let index ← fieldOr fields "index" decodeInt 0
    let logprobs ← fieldOr fields "logprobs" (decodeArr decodeInt) []
    let finishReason ← fieldOr fields "finish_reason" decodeString ""
    let presencePenalty ← fieldOr fields "presence_penalty" decodeFloat 0
    let frequencyPenalty ← fieldOr fields "frequency_penalty" decodeFloat 0
    let reranked ← fieldOr fields "reranked" decodeBool false
    let truncated ← fieldOr fields "truncated" decodeBool false
    let diversity ← fieldOr fields "diversity" decodeFloat 0
    let temperature ← fieldOr fields "temperature" decodeFloat 0
    let topP ← fieldOr fields "top_p" decodeFloat 0
    let stopSequence ← fieldOr fields "stop_sequence" (decodeArr decodeInt) []
    let tokens ← fieldOr fields "tokens" (decodeArr decodeInt) []
    let weight ← fieldOr fields "weight" decodeFloat 0
    let probability ← fieldOr fields "probability" decodeFloat 0
    let rank ← fieldOr fields "rank" decodeInt 0
    let diversityRank ← fieldOr fields "diversity_rank" decodeInt 0
    let diversityScore ← fieldOr fields "diversity_score" decodeFloat 0
    Except.ok ⟨text, index, logprobs, finishReason, presencePenalty,
      frequencyPenalty, reranked, truncated, diversity, temperature, topP,
      stopSequence, tokens, weight, probability, rank, diversityRank,
      diversityScore⟩
  | _ => Except.error "cannot unmarshal value into field of type Choice"

/-- The zero value of `CompletionResponse` (nil `Choices`). -/
def zeroResponse : CompletionResponse :=
  ⟨"", "", "", [], false, false, false, "", [], false, 0, 0, 0⟩

/-- Unmarshal a JSON value into a `CompletionResponse`
(src/main.go lines 36–50).  A top-level `null` succeeds and leaves the
zero value, exactly as `json.Decoder.Decode` into a struct pointer. -/
def decodeCompletionResponse : Json → Except String CompletionResponse
  | Json.null => Except.ok zeroResponse
  | Json.obj fields => do
    let id ← fieldOr fields "id" decodeString ""
    let model ← fieldOr fields "model" decodeString ""
    let prompt ← fieldOr fields "prompt" decodeString ""
    let choices ← fieldOr fields "choices" (decodeArr decodeChoice) []
    let stream ← fieldOr fields "stream" decodeBool false
    let streaming ← fieldOr fields "streaming" decodeBool false
    let truncated ← fieldOr fields "truncated" decodeBool false
    let warning ← fieldOr fields "warning" decodeString ""
    let errs ← fieldOr fields "errors" (decodeArr decodeString) []
    let hasMore ← fieldOr fields "has_more" decodeBool false
    let maxTokensPerBatch ← fieldOr fields "max_tokens_per_batch" decodeInt 0
    let batchSize ← fieldOr fields "batch_size" decodeInt 0
    let maxTries ← fieldOr fields "max_tries" decodeInt 0
    Except.ok ⟨id, model, prompt, choices, stream, streaming, truncated,
      warning, errs, hasMore, maxTokensPerBatch, batchSize, maxTries⟩
  | _ => Except.error "cannot unmarshal value into CompletionResponse"

/-- A received response body: well-formed JSON, or raw bytes that are not
valid JSON (on which the decoder reports a syntax error). -/
inductive Body where
  | json (j : Json) : Body
  | malformed (raw : String) : Body

/-- The whole of `json.NewDecoder(resp.Body).Decode(&completionResponse)`
(src/main.go line 115): syntax errors on malformed bodies, unmarshalling
errors per the schema otherwise. -/
def decodeResponseBody : Body → Except String CompletionResponse
  | Body.malformed _ => Except.error "invalid character in JSON input"
  | Body.json j => decodeCompletionResponse j

/-! ## The HTTP layer and `generateText` -/

/-- An outbound HTTP request as `generateText` builds it: method, URL,
the headers set via `Header.Set` (canonicalized names, later `Set` of the
same name would overwrite), and the serialized JSON body. -/
structure HttpRequest where
  method : String
  url : String
  headers : List (String × String)
  body : Json

/-- The visible part of an `http.Response`: status code and body. -/
structure HttpResponse where
  statusCode : Nat
  body : Body

/-- The error values `generateText` can return.  `marshalFailure` and
`newRequestFailure` mirror the source's two dead error branches:
`json.Marshal` cannot fail on `CompletionRequest` and `http.NewRequest`
cannot fail on the constant method and URL, so neither is ever
produced. -/
inductive GenError where
  | configMissingKey : GenError
  | marshalFailure (msg : String) : GenError
  | newRequestFailure (msg : String) : GenError
  | network (msg : String) : GenError
  | httpStatus (code : Nat) : GenError
  | decodeFailure (msg : String) : GenError
deriving DecidableEq

/-- The outcome of a call of the Go function: a normal return of the pair
`(text, err)`, or a runtime panic (the unguarded index). -/
inductive GoResult where
  | ret (text : String) (err : Option GenError) : GoResult
  | panicked (msg : String) : GoResult
deriving DecidableEq

/-- Observable side effects of one call: every request handed to the
transport (in order) and how many times the JSON decoder was applied to a
response body. -/
structure Trace where
  requests : List HttpRequest
  decodeCalls : Nat

/-- The request `generateText` hands to `client.Do`
(src/main.go lines 94–100): POST to the fixed URL, the two headers set
via `Header.Set`, and the marshalled body.  `http.NewRequest` cannot fail
on the constant method and URL, so construction is total. -/
def theRequest (apiKey prompt model : String) : HttpRequest :=
  ⟨"POST", apiURL,
   [("Content-Type", "application/json"),
    ("Authorization", "Bearer " ++ apiKey)],
   requestPayload prompt model⟩

/-- Handling of a received `http.Response`
(src/main.go lines 109–120): non-200 statuses error without touching the
body; otherwise the body is decoded, a decode failure errors, and the
text of choice zero is returned — unguarded, so an empty `choices` list
panics with an index-out-of-range runtime error. -/
def handleResponse (req : HttpRequest) (resp : HttpResponse) : GoResult × Trace :=
  if resp.statusCode ≠ 200 then
    (GoResult.ret "" (some (GenError.httpStatus resp.statusCode)), ⟨[req], 0⟩)
  else
    match decodeResponseBody resp.body with
    | Except.error msg =>
      (GoResult.ret "" (some (GenError.decodeFailure msg)), ⟨[req], 1⟩)
    | Except.ok completionResponse =>
      match completionResponse.choices with
      | [] => (GoResult.panicked "runtime error: index out of range", ⟨[req], 1⟩)
      | c :: _ => (GoResult.ret c.text none, ⟨[req], 1⟩)

/-- `generateText` (src/main.go lines 73–121): default the model, read
`OPENAI_API_KEY` (empty means unset), marshal the request struct, build
the POST, run the transport once, and handle the response. -/
def generateText (getenv : String → String)
    (transport : HttpRequest → Except String HttpResponse)
    (prompt : String) (model0 : String) : GoResult × Trace :=
  if getenv "OPENAI_API_KEY" = "" then
    (GoResult.ret "" (some GenError.configMissingKey), ⟨[], 0⟩)
  else
    match transport (theRequest (getenv "OPENAI_API_KEY") prompt
        (if model0 = "" then defaultModel else model0)) with
    | Except.error e =>
      (GoResult.ret "" (some (GenError.network e)),
       ⟨[theRequest (getenv "OPENAI_API_KEY") prompt
          (if model0 = "" then defaultModel else model0)], 0⟩)
    | Except.ok resp =>
      handleResponse (theRequest (getenv "OPENAI_API_KEY") prompt
        (if model0 = "" then defaultModel else model0)) resp

/-! ## Mock environments, transports and bodies for concrete runs -/

/-- An environment in which every variable (in particular
`OPENAI_API_KEY`) holds `"test-key"`. -/
def envWithKey : String → String := fun _ => "test-key"

/-- An environment with no variables set: `os.Getenv` yields `""`. -/
def emptyEnv : String → String := fun _ => ""

/-- A mocked transport answering every request with the same response. -/
def constTransport (resp : HttpResponse) : HttpRequest → Except String HttpResponse :=
  fun _ => Except.ok resp

/-- A mocked transport failing every request at the transport level. -/
def failTransport (e : String) : HttpRequest → Except String HttpResponse :=
  fun _ => Except.error e

/-- The response body of the spec's success scenario, the JSON text
written there as `\x7b"choices":[\x7b"text":"hello"\x7d]\x7d`. -/
def helloBody : Body :=
  Body.json (Json.obj [("choices", Json.arr [Json.obj [("text", Json.str "hello")]])])

/-- The response body of the spec's empty-choices scenario: a `choices`
key holding an empty array. -/
def emptyChoicesBody : Body :=
  Body.json (Json.obj [("choices", Json.arr [])])

/-- A well-formed body with two choices, to exercise that only the first
is consumed. -/
def twoChoicesBody : Body :=
  Body.json (Json.obj [("choices", Json.arr
    [Json.obj [("text", Json.str "first")],
     Json.obj [("text", Json.str "second")]])])

/-- A body that is not valid JSON at all. -/
def malformedBody : Body := Body.malformed "not json"

/-! ## Helper lemmas about the control flow of `generateText` -/

/-- Every outcome of `handleResponse` records exactly the one request
that produced the response. -/
theorem handleResponse_requests (req : HttpRequest) (resp : HttpResponse) :
    (handleResponse req resp).2.requests = [req] := by
  unfold handleResponse
  split
  · rfl
  · split
    · rfl
    · split <;> rfl

/-- When the key is present, the single issued request is `theRequest` of
the key, the prompt and the defaulted model, whatever the transport
answers. -/
theorem generateText_requests_of_key (g : String → String)
    (t : HttpRequest → Except String HttpResponse) (p m : String)
    (hk : ¬ g "OPENAI_API_KEY" = "") :
    (generateText g t p m).2.requests
      = [theRequest (g "OPENAI_API_KEY") p (if m = "" then defaultModel else m)] := by
  unfold generateText
  rw [if_neg hk]
  split
  · rfl
  · exact handleResponse_requests _ _

/-- With the key present and a transport that always fails, the call
returns the network error. -/
theorem generateText_transport_error (g : String → String)
    (t : HttpRequest → Except String HttpResponse) (p m e : String)
    (hk : ¬ g "OPENAI_API_KEY" = "") (ht : ∀ r, t r = Except.error e) :
    generateText g t p m
      = (GoResult.ret "" (some (GenError.network e)),
         ⟨[theRequest (g "OPENAI_API_KEY") p (if m = "" then defaultModel else m)], 0⟩) := by
  unfold generateText
  rw [if_neg hk, ht]

/-- With the key present and a transport that always answers `resp`, the
call is `handleResponse` of the issued request and `resp`. -/
theorem generateText_transport_ok (g : String → String)
    (t : HttpRequest → Except String HttpResponse) (p m : String)
    (resp : HttpResponse)
    (hk : ¬ g "OPENAI_API_KEY" = "") (ht : ∀ r, t r = Except.ok resp) :
    generateText g t p m
      = handleResponse
          (theRequest (g "OPENAI_API_KEY") p (if m = "" then defaultModel else m)) resp := by
  unfold generateText
  rw [if_neg hk, ht]

/-- A non-200 status errors with that status code, without a decoder
call. -/
theorem handleResponse_non200 (req : HttpRequest) (resp : HttpResponse)
    (hs : resp.statusCode ≠ 200) :
    handleResponse req resp
      = (GoResult.ret "" (some (GenError.httpStatus resp.statusCode)), ⟨[req], 0⟩) := by
  unfold handleResponse
  rw [if_pos hs]

/-- A status-200 response whose body fails to decode errors with the
decode failure. -/
theorem handleResponse_decode_error (req : HttpRequest) (resp : HttpResponse)
    (msg : String) (h200 : resp.statusCode = 200)
    (hd : decodeResponseBody resp.body = Except.error msg) :
    handleResponse req resp
      = (GoResult.ret "" (some (GenError.decodeFailure msg)), ⟨[req], 1⟩) := by
  unfold handleResponse
  rw [if_neg (fun hne => hne h200), hd]

/-- A status-200 response decoding to a nonempty choice list returns the
first choice's text. -/
theorem handleResponse_first_choice (req : HttpRequest) (resp : HttpResponse)
    (cr : CompletionResponse) (c : Choice) (rest : List Choice)
    (h200 : resp.statusCode = 200)
    (hd : decodeResponseBody resp.body = Except.ok cr)
    (hc : cr.choices = c :: rest) :
    handleResponse req resp = (GoResult.ret c.text none, ⟨[req], 1⟩) := by
  unfold handleResponse
  rw [if_neg (fun hne => hne h200), hd]
  simp only [hc]

/-! ## The claims -/

/-- C1: the spec demands a NoChoices error on an HTTP 200 response whose
`choices` array is empty, but src/main.go line 120 indexes `Choices[0]`
with no length guard: on that response `generateText` panics with an
index-out-of-range runtime error instead of returning an error. -/
theorem C1_emptyChoices_code_panics :
    (generateText envWithKey (constTransport ⟨200, emptyChoicesBody⟩) "p" "").1
      = GoResult.panicked "runtime error: index out of range" := rfl

/-- C2: when the API key lookup yields the empty string, `generateText`
returns the configuration error with empty text, for every prompt, model
and transport, and the transport is never invoked (the recorded request
list is empty). -/
theorem C2_missingKey_error_and_no_network_call (g : String → String)
    (t : HttpRequest → Except String HttpResponse) (prompt model : String)
    (h : g "OPENAI_API_KEY" = "") :
    (generateText g t prompt model).1
      = GoResult.ret "" (some GenError.configMissingKey)
    ∧ (generateText g t prompt model).2.requests = [] := by
  unfold generateText
  rw [if_pos h]
  exact ⟨rfl, rfl⟩

/-- Witness for C2 at the empty environment. -/
theorem C2_witness :
    (generateText emptyEnv (constTransport ⟨200, helloBody⟩) "p" "m").1
      = GoResult.ret "" (some GenError.configMissingKey)
    ∧ (generateText emptyEnv (constTransport ⟨200, helloBody⟩) "p" "m").2.requests = [] :=
  C2_missingKey_error_and_no_network_call emptyEnv
    (constTransport ⟨200, helloBody⟩) "p" "m" rfl

/-- C3: with the credential present and a transport answering HTTP 200
with body holding one choice of text `"hello"`, the call
`generateText "prompt" ""` returns the pair of `"hello"` and no error. -/
theorem C3_hello_success (g : String → String)
    (t : HttpRequest → Except String HttpResponse)
    (hk : ¬ g "OPENAI_API_KEY" = "")
    (ht : ∀ r, t r = Except.ok ⟨200, helloBody⟩) :
    (generateText g t "prompt" "").1 = GoResult.ret "hello" none := by
  rw [generateText_transport_ok g t "prompt" "" ⟨200, helloBody⟩ hk ht]
  rfl

/-- Witness for C3 at a concrete environment and transport. -/
theorem C3_witness :
    (generateText envWithKey (constTransport ⟨200, helloBody⟩) "prompt" "").1
      = GoResult.ret "hello" none :=
  C3_hello_success envWithKey (constTransport ⟨200, helloBody⟩)
    (by decide) (fun _ => rfl)

/-- C4: on any response whose status code differs from 200 (which
subsumes every status outside the success range, e.g. 429), the result
is the HTTP error carrying that code, and the JSON decoder is never
applied to the body (the recorded decoder-call count is zero). -/
theorem C4_non200_status_error_body_unparsed (g : String → String)
    (t : HttpRequest → Except String HttpResponse) (p m : String)
    (resp : HttpResponse)
    (hk : ¬ g "OPENAI_API_KEY" = "")
    (ht : ∀ r, t r = Except.ok resp)
    (hs : resp.statusCode ≠ 200) :
    (generateText g t p m).1
      = GoResult.ret "" (some (GenError.httpStatus resp.statusCode))
    ∧ (generateText g t p m).2.decodeCalls = 0 := by
  rw [generateText_transport_ok g t p m resp hk ht,
      handleResponse_non200 _ resp hs]
  exact ⟨rfl, rfl⟩

/-- Witness for C4 at HTTP 429 with an unparseable body. -/
theorem C4_witness :
    (generateText envWithKey (constTransport ⟨429, malformedBody⟩) "p" "m").1
      = GoResult.ret "" (some (GenError.httpStatus 429))
    ∧ (generateText envWithKey (constTransport ⟨429, malformedBody⟩) "p" "m").2.decodeCalls = 0 :=
  C4_non200_status_error_body_unparsed envWithKey
    (constTransport ⟨429, malformedBody⟩) "p" "m" ⟨429, malformedBody⟩
    (by decide) (fun _ => rfl) (by decide)

/-- C5: with the credential present, the one issued request's serialized
body is `requestPayload` of the prompt and the defaulted model, and in
that payload the `model` field is the default constant when the caller
passed the empty model and exactly the caller's string otherwise, while
the `prompt` field carries the caller's prompt unmodified. -/
theorem C5_model_defaulting_roundtrip (g : String → String)
    (t : HttpRequest → Except String HttpResponse) (prompt model : String)
    (hk : ¬ g "OPENAI_API_KEY" = "") :
    (generateText g t prompt model).2.requests.map HttpRequest.body
      = [requestPayload prompt (if model = "" then defaultModel else model)]
    ∧ (requestPayload prompt (if model = "" then defaultModel else model)).getField "model"
      = some (Json.str (if model = "" then defaultModel else model))
    ∧ (requestPayload prompt (if model = "" then defaultModel else model)).getField "prompt"
      = some (Json.str prompt) := by
  refine ⟨?_, rfl, rfl⟩
  rw [generateText_requests_of_key g t prompt model hk]
  rfl

/-- Witness for C5 at the non-empty model `"gpt-x"`. -/
theorem C5_witness :
    (generateText envWithKey (constTransport ⟨200, helloBody⟩) "prompt" "gpt-x").2.requests.map
        HttpRequest.body
      = [requestPayload "prompt" (if "gpt-x" = "" then defaultModel else "gpt-x")]
    ∧ (requestPayload "prompt"
        (if "gpt-x" = "" then defaultModel else "gpt-x")).getField "model"
      = some (Json.str (if "gpt-x" = "" then defaultModel else "gpt-x"))
    ∧ (requestPayload "prompt"
        (if "gpt-x" = "" then defaultModel else "gpt-x")).getField "prompt"
      = some (Json.str "prompt") :=
  C5_model_defaulting_roundtrip envWithKey (constTransport ⟨200, helloBody⟩)
    "prompt" "gpt-x" (by decide)

/-- C6: every request payload `generateText` hands to the transport
carries the fixed generation parameters: its `temperature` field is the
number 0.8 and its `max_tokens` field is the number 2000, for every
environment, transport, prompt and model. -/
theorem C6_fixed_generation_parameters (g : String → String)
    (t : HttpRequest → Except String HttpResponse) (p m : String)
    (r : HttpRequest) (hr : r ∈ (generateText g t p m).2.requests) :
    r.body.getField "temperature" = some (Json.num 0.8)
    ∧ r.body.getField "max_tokens" = some (Json.num 2000) := by
  by_cases hk : g "OPENAI_API_KEY" = ""
  · rw [show (generateText g t p m).2.requests = [] by
      unfold generateText; rw [if_pos hk]] at hr
    cases hr
  · rw [generateText_requests_of_key g t p m hk] at hr
    rw [List.mem_singleton.mp hr]
    exact ⟨rfl, rfl⟩

/-- Witness for C6 at a concrete run whose one request is `theRequest`
of the test key, the prompt and the default model. -/
theorem C6_witness :
    (theRequest "test-key" "p" defaultModel).body.getField "temperature"
      = some (Json.num 0.8)
    ∧ (theRequest "test-key" "p" defaultModel).body.getField "max_tokens"
      = some (Json.num 2000) :=
  C6_fixed_generation_parameters envWithKey (constTransport ⟨200, helloBody⟩)
    "p" "" (theRequest "test-key" "p" defaultModel)
    (by rw [show (generateText envWithKey (constTransport ⟨200, helloBody⟩) "p" "").2.requests
          = [theRequest "test-key" "p" defaultModel] from rfl]
        exact List.mem_singleton.mpr rfl)

/-- C7: with the credential present, exactly one request is issued, and
it is a POST to the fixed endpoint URL with content-type
`application/json` and authorization `Bearer` followed by the
credential; and when the transport fails, that failure comes back as the
network error with no further request. -/
theorem C7_single_post_fixed_endpoint_headers (g : String → String)
    (t : HttpRequest → Except String HttpResponse) (p m : String)
    (hk : ¬ g "OPENAI_API_KEY" = "") :
    (generateText g t p m).2.requests
      = [theRequest (g "OPENAI_API_KEY") p (if m = "" then defaultModel else m)]
    ∧ (theRequest (g "OPENAI_API_KEY") p (if m = "" then defaultModel else m)).method
      = "POST"
    ∧ (theRequest (g "OPENAI_API_KEY") p (if m = "" then defaultModel else m)).url
      = apiURL
    ∧ (theRequest (g "OPENAI_API_KEY") p (if m = "" then defaultModel else m)).headers
      = [("Content-Type", "application/json"),
         ("Authorization", "Bearer " ++ g "OPENAI_API_KEY")]
    ∧ ∀ e, (∀ r, t r = Except.error e) →
        (generateText g t p m).1 = GoResult.ret "" (some (GenError.network e)) := by
  refine ⟨generateText_requests_of_key g t p m hk, rfl, rfl, rfl, ?_⟩
  intro e ht
  rw [generateText_transport_error g t p m e hk ht]

/-- Witness for C7 at a transport that always fails with a connection
error. -/
theorem C7_witness :
    (generateText envWithKey (failTransport "connection refused") "p" "gpt-x").2.requests
      = [theRequest "test-key" "p" (if "gpt-x" = "" then defaultModel else "gpt-x")]
    ∧ (theRequest "test-key" "p" (if "gpt-x" = "" then defaultModel else "gpt-x")).method
      = "POST"
    ∧ (theRequest "test-key" "p" (if "gpt-x" = "" then defaultModel else "gpt-x")).url
      = apiURL
    ∧ (theRequest "test-key" "p" (if "gpt-x" = "" then defaultModel else "gpt-x")).headers
      = [("Content-Type", "application/json"),
         ("Authorization", "Bearer " ++ envWithKey "OPENAI_API_KEY")]
    ∧ ∀ e, (∀ r, failTransport "connection refused" r = Except.error e) →
        (generateText envWithKey (failTransport "connection refused") "p" "gpt-x").1
          = GoResult.ret "" (some (GenError.network e)) :=
  C7_single_post_fixed_endpoint_headers envWithKey
    (failTransport "connection refused") "p" "gpt-x" (by decide)

/-- C8: on an HTTP 200 response whose body does not decode into the
response schema, the result is the decode error carrying the decoder's
message, with empty text; holds for every undecodable body. -/
theorem C8_malformed_body_decode_error (g : String → String)
    (t : HttpRequest → Except String HttpResponse) (p m : String)
    (resp : HttpResponse) (msg : String)
    (hk : ¬ g "OPENAI_API_KEY" = "")
    (ht : ∀ r, t r = Except.ok resp)
    (h200 : resp.statusCode = 200)
    (hdec : decodeResponseBody resp.body = Except.error msg) :
    (generateText g t p m).1 = GoResult.ret "" (some (GenError.decodeFailure msg)) := by
  rw [generateText_transport_ok g t p m resp hk ht,
      handleResponse_decode_error _ resp msg h200 hdec]

/-- Witness for C8 at a body that is not valid JSON. -/
theorem C8_witness :
    (generateText envWithKey (constTransport ⟨200, malformedBody⟩) "p" "m").1
      = GoResult.ret "" (some (GenError.decodeFailure "invalid character in JSON input")) :=
  C8_malformed_body_decode_error envWithKey (constTransport ⟨200, malformedBody⟩)
    "p" "m" ⟨200, malformedBody⟩ "invalid character in JSON input"
    (by decide) (fun _ => rfl) rfl rfl

/-- C9: whenever a 200 response decodes to a choice list with head `c`,
the returned text is `c.text` with no error, whatever the remaining
choices are: only the first choice is consumed. -/
theorem C9_first_choice_only (g : String → String)
    (t : HttpRequest → Except String HttpResponse) (p m : String)
    (resp : HttpResponse) (cr : CompletionResponse) (c : Choice)
    (rest : List Choice)
    (hk : ¬ g "OPENAI_API_KEY" = "")
    (ht : ∀ r, t r = Except.ok resp)
    (h200 : resp.statusCode = 200)
    (hdec : decodeResponseBody resp.body = Except.ok cr)
    (hc : cr.choices = c :: rest) :
    (generateText g t p m).1 = GoResult.ret c.text none := by
  rw [generateText_transport_ok g t p m resp hk ht,
      handleResponse_first_choice _ resp cr c rest h200 hdec hc]

/-- Witness for C9 at a body with two choices: the returned text is the
first choice's and the second is ignored. -/
theorem C9_witness :
    (generateText envWithKey (constTransport ⟨200, twoChoicesBody⟩) "p" "m").1
      = GoResult.ret "first" none :=
  C9_first_choice_only envWithKey (constTransport ⟨200, twoChoicesBody⟩) "p" "m"
    ⟨200, twoChoicesBody⟩
    ⟨"", "", "", [⟨"first", 0, [], "", 0, 0, false, false, 0, 0, 0, [], [], 0, 0, 0, 0, 0⟩,
      ⟨"second", 0, [], "", 0, 0, false, false, 0, 0, 0, [], [], 0, 0, 0, 0, 0⟩],
      false, false, false, "", [], false, 0, 0, 0⟩
    ⟨"first", 0, [], "", 0, 0, false, false, 0, 0, 0, [], [], 0, 0, 0, 0, 0⟩
    [⟨"second", 0, [], "", 0, 0, false, false, 0, 0, 0, [], [], 0, 0, 0, 0, 0⟩]
    (by decide) (fun _ => rfl) rfl rfl rfl

/-- C10: on every error return of `generateText` — whatever the
environment, transport, prompt and model — the text component of the
returned pair is the empty string. -/
theorem C10_error_implies_empty_text (g : String → String)
    (t : HttpRequest → Except String HttpResponse) (p m : String)
    (text : String) (e : GenError)
    (h : (generateText g t p m).1 = GoResult.ret text (some e)) :
    text = "" := by
  unfold generateText at h
  split at h
  · simp_all
  · split at h
    · simp_all
    · unfold handleResponse at h
      split at h
      · simp_all
      · split at h
        · simp_all
        · split at h <;> simp_all

/-- Witness for C10 at the missing-credential error. -/
theorem C10_witness : ("" : String) = "" :=
  C10_error_implies_empty_text emptyEnv (constTransport ⟨200, helloBody⟩)
    "p" "m" "" GenError.configMissingKey rfl

end Gpt3Cli
